import Mathlib

/-!
Verification of the codebase-RAG pipeline (`src/rag_engine.py`, `src/utils.py`,
`src/app.py`) against its natural-language specification.

The embedding below translates the Python source into Lean:
pure helpers become Lean functions; the external effects (git clone outcome,
embedding model, generative model, document splitter) are explicit parameters;
the on-disk state of a session (fetched tree, persisted Chroma collection) is an
explicit record threaded through the pipeline functions.
-/

namespace CodebaseRAG

/-- A langchain `Document` as used by the engine: `page_content` plus the
`source` metadata entry (the origin file path). -/
structure Doc where
  page_content : String
  source : String
deriving DecidableEq, Repr

/-- Semantics of Python `sep.join(xs)`: elements concatenated with `sep`
between consecutive elements, empty string on the empty list. -/
def joinSep (sep : String) : List String → String
  | [] => ""
  | [s] => s
  | s :: t :: rest => s ++ sep ++ joinSep sep (t :: rest)

/-- From `src/rag_engine.py` lines 33-35:
`return "\n\n".join(doc.page_content for doc in docs)`. -/
def format_docs (docs : List Doc) : String :=
  joinSep "\n\n" (docs.map Doc.page_content)

/-- Embedding vectors, modelled as integer vectors (the real system uses
fixed-dimension float vectors from all-MiniLM-L6-v2). -/
abbrev Vec := List Int

/-- Squared L2 distance between two vectors, the similarity metric of the
vector index. -/
def sqDist (u v : Vec) : Int :=
  (List.zipWith (fun a b => (a - b) * (a - b)) u v).sum

/-- Modelled from the spec: the nearest-neighbor search inside the Chroma
vector store (external library, not part of `src/`): the stored
(chunk, vector) pairs sorted by distance to the query vector, nearest first,
truncated to `k`. -/
def chroma_retrieve (store : List (Doc × Vec)) (qv : Vec) (k : Nat) :
    List (Doc × Vec) :=
  (store.insertionSort (fun a b => sqDist a.2 qv ≤ sqDist b.2 qv)).take k

/-- The retriever's user-visible output: the documents of the `k` nearest
stored pairs, nearest first. -/
def retrieve_docs (store : List (Doc × Vec)) (qv : Vec) (k : Nat) : List Doc :=
  (chroma_retrieve store qv k).map Prod.fst

/-- A file of a fetched repository tree: path and text content. -/
structure RepoFile where
  path : String
  content : String
deriving DecidableEq, Repr

/-- Outcome of the external `git clone` call (network effect), supplied as a
parameter: either a fetched tree or a raised exception. -/
inductive CloneOutcome where
  | ok (tree : List RepoFile)
  | fail
deriving DecidableEq, Repr

/-- The two on-disk artifacts of one session: the tree at
`./temp_repos/(session_id)` and the persisted Chroma collection at
`./chroma_db/(session_id)`. -/
structure SessionDisk where
  repoTree : Option (List RepoFile)
  dbStore : List (Doc × Vec)
deriving DecidableEq, Repr

/-- The mutable fields of a `RAGSystem` object: whether `self.retriever` and
`self.qa_chain` have been assigned (both start as `None`,
`src/rag_engine.py` lines 44-45). -/
structure RAGState where
  retriever : Bool
  qa_chain : Bool
deriving DecidableEq, Repr

/-- `RAGSystem.__init__`: `self.qa_chain = None`, `self.retriever = None`. -/
def RAGSystem_init : RAGState := { retriever := false, qa_chain := false }

/-- From `src/rag_engine.py` line 41: `self.repo_path = f"./temp_repos/(session_id)"`. -/
def RAGSystem.repo_path (session_id : String) : String :=
  "./temp_repos/" ++ session_id

/-- From `src/rag_engine.py` line 42: `self.db_path = f"./chroma_db/(session_id)"`. -/
def RAGSystem.db_path (session_id : String) : String :=
  "./chroma_db/" ++ session_id

/-- The file selection of the glob pattern "**/*.py": paths whose last three
characters are ".py". -/
def matches_py_glob (p : String) : Bool :=
  p.data.reverse.take 3 == ['y', 'p', '.']

/-- From `RAGSystem._load_all_documents` (lines 72-89): load with
`glob="**/*.py"`, producing one document per Python file with the file path as
source metadata. -/
def load_all_documents (tree : List RepoFile) : List Doc :=
  (tree.filter (fun f => matches_py_glob f.path)).map
    (fun f => { page_content := f.content, source := f.path })

/-- The system prompt of lines 60-66 with the `context` slot filled in. -/
def system_prompt (context : String) : String :=
  "You are an expert Codebase Archaeologist. Analyze ONLY the retrieved documents to answer the question. Ground your answer strictly in the code context provided. If the answer is not present in the retrieved context, reply: \x27The answer is not present in the codebase.\x27\n\nContext:\n" ++ context

/-- The chunks the splitter produces for a tree, paired with the vectors the
embedding model assigns at build time (`Chroma.from_documents` embeds every
chunk with `self.embeddings`). -/
def indexChunks (split : List Doc → List Doc) (embed : String → Vec)
    (tree : List RepoFile) : List (Doc × Vec) :=
  (split (load_all_documents tree)).map (fun d => (d, embed d.page_content))

/-- Result of one `load_and_index` run: the exception raised (if any), the
`RAGSystem` fields after the run, and the on-disk state after the run. -/
structure IndexResult where
  err : Option String
  rag : RAGState
  disk : SessionDisk
deriving DecidableEq, Repr

/-- From `RAGSystem.load_and_index` (lines 91-135).
`clone_or_update_repo` first deletes any prior tree at `repo_path`, then
clones (`src/utils.py`); on clone failure the method raises
`Failed to clone: (repo_url)`. Then documents are loaded; zero documents
raises. Then the splitter runs and `Chroma.from_documents` embeds the chunks
and ADDS them to the collection persisted at `db_path` (it does not clear a
pre-existing collection); `buildOk` is the outcome of that external
embedding/storage call. Only after a successful build are `self.retriever`
and `self.qa_chain` assigned. -/
def load_and_index (split : List Doc → List Doc) (embed : String → Vec)
    (st : RAGState) (disk : SessionDisk) (repo_url : String)
    (clone : CloneOutcome) (buildOk : Bool) : IndexResult :=
  match clone with
  | .fail =>
      { err := some ("Failed to clone: " ++ repo_url), rag := st,
        disk := { disk with repoTree := none } }
  | .ok tree =>
      let disk1 : SessionDisk := { disk with repoTree := some tree }
      let documents := load_all_documents tree
      if documents.length = 0 then
        { err := some "No documents found. Check repository contents or file filter.",
          rag := st, disk := disk1 }
      else
        if buildOk then
          let disk2 : SessionDisk :=
            { disk1 with dbStore := disk1.dbStore ++ indexChunks split embed tree }
          { err := none, rag := { retriever := true, qa_chain := true },
            disk := disk2 }
        else
          { err := some "Index build failed.", rag := st, disk := disk1 }

/-- `ask`'s return dictionary (`result`, `source_documents`). -/
structure AskResult where
  result : String
  source_documents : List Doc
deriving DecidableEq, Repr

/-- The chunks the `qa_chain` feeds to `format_docs` for the synthesis
context: the retriever (k = 3) applied to the query pulled out of the input
dictionary by `itemgetter("input")` (line 128). -/
def contextChunks (embed : String → Vec) (disk : SessionDisk)
    (query : String) : List Doc :=
  retrieve_docs disk.dbStore (embed query) 3

/-- From `RAGSystem.ask` (lines 137-155). Returns the result dictionary, the
object state after the call (`ask` assigns no fields), and the trace of
queries sent to the retriever, in order: the `qa_chain.invoke` on line 146
runs the retriever once inside the chain, and line 149 invokes
`self.retriever` a second time, standalone, to collect the displayed source
documents. -/
def ask (embed : String → Vec) (llm : String → String → String)
    (st : RAGState) (disk : SessionDisk) (query : String) :
    AskResult × RAGState × List String :=
  if st.qa_chain = false then
    ({ result := "Error: DB not indexed.", source_documents := [] }, st, [])
  else
    let chainDocs := contextChunks embed disk query
    let answer_text := llm (system_prompt (format_docs chainDocs)) query
    let source_documents := retrieve_docs disk.dbStore (embed query) 3
    ({ result := answer_text, source_documents := source_documents }, st,
      [query] ++ [query])

/-- The app-level session fields relevant to the pipeline
(`st.session_state.rag_system`, `st.session_state.indexed_repo`). -/
structure AppState where
  rag_system : Option RAGState
  indexed_repo : Option String
deriving DecidableEq, Repr

/-- From `src/app.py` lines 113-131: on submit a FRESH `RAGSystem` is built
for the session and `load_and_index` runs; on success `rag_system` and
`indexed_repo` are stored; on any exception both are reset to `None`.
(The `clean_directory(temp_dir)` call touches only the unrelated scratch
directory, not the session's repo or db directory.) -/
def submitIndex (split : List Doc → List Doc) (embed : String → Vec)
    (_app : AppState) (disk : SessionDisk) (repo_url : String)
    (clone : CloneOutcome) (buildOk : Bool) : AppState × SessionDisk :=
  let r := load_and_index split embed RAGSystem_init disk repo_url clone buildOk
  match r.err with
  | none => ({ rag_system := some r.rag, indexed_repo := some repo_url }, r.disk)
  | some _ => ({ rag_system := none, indexed_repo := none }, r.disk)

/-- From `src/app.py` lines 141-238: the chat features (and hence `ask`) are
only rendered when `st.session_state.rag_system` is set; with `rag_system`
cleared, no ask can run at all. -/
def appAsk (embed : String → Vec) (llm : String → String → String)
    (app : AppState) (disk : SessionDisk) (query : String) :
    Option (AskResult × RAGState × List String) :=
  match app.rag_system with
  | none => none
  | some st => some (ask embed llm st disk query)

/-- A filesystem entry at a path: missing, or a directory holding a flat list
of (relative path, content) files. -/
inductive FsEntry where
  | absent
  | dir (files : List (String × String))
deriving DecidableEq, Repr

/-- A filesystem: an entry for every path string. -/
def Fs : Type := String → FsEntry

/-- `os.path.exists`. -/
def os_path_exists (fs : Fs) (p : String) : Bool :=
  match fs p with
  | .absent => false
  | .dir _ => true

/-- `shutil.rmtree`: removes the tree rooted at `p`. -/
def shutil_rmtree (fs : Fs) (p : String) : Fs :=
  fun q => if q = p then .absent else fs q

/-- `os.makedirs(p, exist_ok=True)`: creates an empty directory when `p` is
missing, leaves an existing entry alone. -/
def os_makedirs (fs : Fs) (p : String) : Fs :=
  fun q => if q = p then (match fs p with | .absent => .dir [] | e => e) else fs q

/-- From `src/rag_engine.py` lines 25-30: delete the tree when it exists,
then recreate the directory. -/
def clean_directory (fs : Fs) (p : String) : Fs :=
  let fs1 := if os_path_exists fs p then shutil_rmtree fs p else fs
  os_makedirs fs1 p

/-- From `src/utils.py` lines 5-16: delete any pre-existing tree at
`repo_path`, then attempt the clone inside try/except; returns `True` on
success and `False` when the clone raises, never propagating the clone
exception. -/
def clone_or_update_repo (fs : Fs) (repo_url : String) (repo_path : String)
    (outcome : CloneOutcome) : Bool × Fs :=
  let fs1 := if os_path_exists fs repo_path then shutil_rmtree fs repo_path else fs
  match outcome with
  | .ok tree =>
      (true, fun q =>
        if q = repo_path then .dir (tree.map (fun f => (f.path, f.content)))
        else fs1 q)
  | .fail => (false, fs1)

/-! Helper lemmas shared by the claim theorems. -/

/-- Python join on a cons with a nonempty tail puts exactly one separator
after the head. -/
theorem joinSep_cons (sep a : String) (l : List String) (h : l ≠ []) :
    joinSep sep (a :: l) = a ++ sep ++ joinSep sep l := by
  cases l with
  | nil => exact absurd rfl h
  | cons b t => rfl

/-- Appending a fixed string on the left is injective. -/
theorem append_left_cancel_str {p s t : String} (h : p ++ s = p ++ t) :
    s = t := by
  apply String.ext
  have h2 := congrArg String.data h
  rw [String.data_append, String.data_append] at h2
  exact List.append_cancel_left h2

/-! The claim theorems. -/

/-- Claim C4: for every question, calling ask on a session that has not
completed a successful index does not throw but returns the sentinel error
result (result = "Error: DB not indexed.", empty source list), performs no
retrieval, and leaves the session state unchanged. -/
theorem ask_before_index_returns_sentinel
    (embed : String → Vec) (llm : String → String → String)
    (st : RAGState) (disk : SessionDisk) (q : String)
    (h : st.qa_chain = false) :
    ask embed llm st disk q =
      ({ result := "Error: DB not indexed.", source_documents := [] }, st, []) := by
  simp [ask, h]

/-- Witness for claim C4 at a freshly initialized session and a concrete
question. -/
theorem ask_before_index_returns_sentinel_witness :
    ask (fun _ => [0]) (fun _ _ => "a") RAGSystem_init
        { repoTree := none, dbStore := [] } "q" =
      ({ result := "Error: DB not indexed.", source_documents := [] },
        RAGSystem_init, []) :=
  ask_before_index_returns_sentinel _ _ _ _ _ rfl

/-- Claim C6: the Answer Synthesizer builds the context string by
concatenating the chunks in order with exactly one double newline between
consecutive chunks; the empty sequence gives the empty string and a
singleton gives that chunk's content; and in the Ready state the generative
model is called on exactly that context string. -/
theorem format_docs_double_newline_join :
    (format_docs [] = "") ∧
    (∀ d : Doc, format_docs [d] = d.page_content) ∧
    (∀ (d : Doc) (ds : List Doc), ds ≠ [] →
      format_docs (d :: ds) = d.page_content ++ "\n\n" ++ format_docs ds) ∧
    (∀ (embed : String → Vec) (llm : String → String → String)
        (st : RAGState) (disk : SessionDisk) (q : String),
      st.qa_chain = true →
      (ask embed llm st disk q).1.result =
        llm (system_prompt (format_docs (contextChunks embed disk q))) q) := by
  refine ⟨rfl, fun d => rfl, fun d ds h => ?_, fun embed llm st disk q h => ?_⟩
  · unfold format_docs
    rw [List.map_cons, joinSep_cons]
    simpa using h
  · simp [ask, h]

/-- Witness for claim C6 at concrete chunk lists and a concrete ready
session. -/
theorem format_docs_double_newline_join_witness :
    format_docs [{ page_content := "a", source := "f.py" },
                 { page_content := "b", source := "g.py" }] =
      "a" ++ "\n\n" ++ format_docs [{ page_content := "b", source := "g.py" }] ∧
    (ask (fun _ => [0]) (fun s q => s ++ q) { retriever := true, qa_chain := true }
        { repoTree := none, dbStore := [] } "q").1.result =
      (fun s q => s ++ q)
        (system_prompt (format_docs (contextChunks (fun _ => [0])
          { repoTree := none, dbStore := [] } "q"))) "q" :=
  ⟨format_docs_double_newline_join.2.2.1 _ _ (by simp),
   format_docs_double_newline_join.2.2.2 _ _ _ _ _ rfl⟩

/-- Claim C8: exactly two storage directories are derived per session, of
the form ./temp_repos/(session_id) and ./chroma_db/(session_id), both keyed
by the same identifier; distinct identifiers never share a repo directory or
an index directory. -/
theorem session_paths_distinct (s t : String) :
    (RAGSystem.repo_path s = "./temp_repos/" ++ s ∧
     RAGSystem.db_path s = "./chroma_db/" ++ s) ∧
    (s ≠ t →
      RAGSystem.repo_path s ≠ RAGSystem.repo_path t ∧
      RAGSystem.db_path s ≠ RAGSystem.db_path t) :=
  ⟨⟨rfl, rfl⟩, fun h =>
    ⟨fun hc => h (append_left_cancel_str hc),
     fun hc => h (append_left_cancel_str hc)⟩⟩

/-- Witness for claim C8 at two concrete distinct session identifiers. -/
theorem session_paths_distinct_witness :
    RAGSystem.repo_path "a" ≠ RAGSystem.repo_path "b" ∧
    RAGSystem.db_path "a" ≠ RAGSystem.db_path "b" :=
  (session_paths_distinct "a" "b").2 (by decide)

/-- Claim C9: clone_or_update_repo is total over clone failures — it returns
True exactly when the clone succeeds and False when the clone raises, never
propagating the exception; and in both outcomes any pre-existing directory
at repo_path was deleted before the clone attempt, so a failed clone leaves
the prior tree destroyed (path absent), and a successful clone leaves
exactly the cloned tree. -/
theorem clone_or_update_repo_total_and_destructive
    (fs : Fs) (repo_url p : String) (tree : List RepoFile) :
    (clone_or_update_repo fs repo_url p (.ok tree)).1 = true ∧
    (clone_or_update_repo fs repo_url p .fail).1 = false ∧
    (clone_or_update_repo fs repo_url p .fail).2 p = .absent ∧
    (clone_or_update_repo fs repo_url p (.ok tree)).2 p =
      .dir (tree.map (fun f => (f.path, f.content))) := by
  refine ⟨rfl, rfl, ?_, by simp [clone_or_update_repo]⟩
  cases h : fs p with
  | absent => simp [clone_or_update_repo, os_path_exists, h]
  | dir l => simp [clone_or_update_repo, os_path_exists, h, shutil_rmtree]

/-- Claim C10: after clean_directory(path) returns, a directory exists at
the path and it is empty, whatever entry (missing directory, empty
directory, or directory with files) was there before. -/
theorem clean_directory_results_in_empty_dir (fs : Fs) (p : String) :
    clean_directory fs p p = .dir [] := by
  cases h : fs p with
  | absent => simp [clean_directory, os_path_exists, os_makedirs, h]
  | dir l => simp [clean_directory, os_path_exists, os_makedirs, shutil_rmtree, h]

/-- Claim C3: whenever an index run fails at any stage (clone, load, chunk,
or index build), the session ends up Failed (rag_system and indexed_repo
cleared) and no partially-built or stale previously-built index is reachable
by a subsequent ask: the app-level ask is unavailable for every question. -/
theorem failed_index_leaves_no_reachable_index
    (split : List Doc → List Doc) (embed : String → Vec)
    (llm : String → String → String) (app0 : AppState) (disk : SessionDisk)
    (repo_url : String) (clone : CloneOutcome) (buildOk : Bool) (e : String)
    (h : (load_and_index split embed RAGSystem_init disk repo_url clone
      buildOk).err = some e) :
    (submitIndex split embed app0 disk repo_url clone buildOk).1.rag_system = none ∧
    (submitIndex split embed app0 disk repo_url clone buildOk).1.indexed_repo = none ∧
    ∀ q, appAsk embed llm (submitIndex split embed app0 disk repo_url clone buildOk).1
      (submitIndex split embed app0 disk repo_url clone buildOk).2 q = none := by
  simp [submitIndex, appAsk, h]

/-- Witness for claim C3 at a concrete failing clone. -/
theorem failed_index_leaves_no_reachable_index_witness :
    (submitIndex (fun ds => ds) (fun _ => [0])
      { rag_system := none, indexed_repo := none }
      { repoTree := none, dbStore := [] } "u" .fail true).1.rag_system = none :=
  (failed_index_leaves_no_reachable_index (fun ds => ds) (fun _ => [0])
    (fun _ _ => "a") { rag_system := none, indexed_repo := none }
    { repoTree := none, dbStore := [] } "u" .fail true
    ("Failed to clone: " ++ "u") rfl).1

/-- Claim C5: when the language filter matches zero files of the fetched
tree, load_and_index raises the empty-corpus error and the session is left
Failed (rag_system and indexed_repo cleared), never Ready. -/
theorem empty_corpus_fails_indexing
    (split : List Doc → List Doc) (embed : String → Vec) (app0 : AppState)
    (disk : SessionDisk) (repo_url : String) (tree : List RepoFile)
    (buildOk : Bool)
    (h : tree.filter (fun f => matches_py_glob f.path) = []) :
    (load_and_index split embed RAGSystem_init disk repo_url (.ok tree)
        buildOk).err =
      some "No documents found. Check repository contents or file filter." ∧
    (submitIndex split embed app0 disk repo_url (.ok tree) buildOk).1.rag_system
      = none ∧
    (submitIndex split embed app0 disk repo_url (.ok tree)
      buildOk).1.indexed_repo = none := by
  have hd : load_all_documents tree = [] := by simp [load_all_documents, h]
  refine ⟨?_, ?_, ?_⟩ <;> simp [load_and_index, submitIndex, hd]

/-- Witness for claim C5 at a concrete one-file tree with no Python file. -/
theorem empty_corpus_fails_indexing_witness :
    (load_and_index (fun ds => ds) (fun _ => [0]) RAGSystem_init
        { repoTree := none, dbStore := [] } "u"
        (.ok [{ path := "README.md", content := "hello" }]) true).err =
      some "No documents found. Check repository contents or file filter." :=
  (empty_corpus_fails_indexing (fun ds => ds) (fun _ => [0])
    { rag_system := none, indexed_repo := none }
    { repoTree := none, dbStore := [] } "u"
    [{ path := "README.md", content := "hello" }] true (by decide)).1

/-- Claim C1 counterexample: in a Ready session, one ask performs TWO
retriever invocations (one inside the qa_chain for the synthesis context,
one standalone on line 149 to collect the displayed sources), refuting the
claim that the displayed chunks come from one and the same retrieval call
with no separate re-retrieval for display. -/
theorem ask_double_retrieval_cex :
    ((ask (fun _ => [0]) (fun _ _ => "ans")
      { retriever := true, qa_chain := true }
      { repoTree := none, dbStore := [] } "q").2.2).length = 2 ∧
    ¬ ((ask (fun _ => [0]) (fun _ _ => "ans")
      { retriever := true, qa_chain := true }
      { repoTree := none, dbStore := [] } "q").2.2).length = 1 :=
  ⟨rfl, by decide⟩

/-- Claim C1 as amended: in the Ready state the source chunks returned by
ask are exactly (same chunks, same order) the chunks whose contents were
concatenated into the synthesis context — but they are produced by a second,
separate invocation of the retriever with the same query (ask sends the
query to the retriever twice), so the agreement comes from retrieval being a
deterministic function of query and index, not from a shared retrieval
call. -/
theorem ask_sources_equal_context_chunks
    (embed : String → Vec) (llm : String → String → String)
    (st : RAGState) (disk : SessionDisk) (q : String)
    (h : st.qa_chain = true) :
    (ask embed llm st disk q).1.source_documents = contextChunks embed disk q ∧
    (ask embed llm st disk q).1.result =
      llm (system_prompt (format_docs (contextChunks embed disk q))) q ∧
    (ask embed llm st disk q).2.2 = [q, q] := by
  simp [ask, h, contextChunks]

/-- Witness for the amended claim C1 at a concrete ready session with one
stored chunk. -/
theorem ask_sources_equal_context_chunks_witness :
    (ask (fun s => [(s.length : Int)]) (fun _ _ => "ans")
        { retriever := true, qa_chain := true }
        { repoTree := none,
          dbStore := [({ page_content := "x = 1", source := "main.py" }, [5])] }
        "q").1.source_documents =
      contextChunks (fun s => [(s.length : Int)])
        { repoTree := none,
          dbStore := [({ page_content := "x = 1", source := "main.py" }, [5])] }
        "q" :=
  (ask_sources_equal_context_chunks (fun s => [(s.length : Int)])
    (fun _ _ => "ans") { retriever := true, qa_chain := true }
    { repoTree := none,
      dbStore := [({ page_content := "x = 1", source := "main.py" }, [5])] }
    "q" rfl).1

/-- A concrete embedder for the concrete-run theorems below. -/
def cexEmbed : String → Vec := fun s => [(s.length : Int)]

/-- A concrete splitter (identity on the loaded documents). -/
def cexSplit : List Doc → List Doc := fun ds => ds

/-- A concrete one-Python-file repository tree. -/
def cexTree : List RepoFile := [{ path := "main.py", content := "x = 1" }]

/-- The app and disk state after indexing cexTree once from an empty
session. -/
def cexSubmit1 : AppState × SessionDisk :=
  submitIndex cexSplit cexEmbed { rag_system := none, indexed_repo := none }
    { repoTree := none, dbStore := [] } "u" (.ok cexTree) true

/-- The app and disk state after indexing cexTree a second time on the same
session. -/
def cexSubmit2 : AppState × SessionDisk :=
  submitIndex cexSplit cexEmbed cexSubmit1.1 cexSubmit1.2 "u" (.ok cexTree) true

/-- Claim C2 counterexample: indexing the same one-file repository twice on
one session leaves the persisted store with TWO copies of the chunk (the
prior collection is never discarded — nothing clears the session's db
directory and the build appends), the final disk state differs from the
single-call state, and the duplicate chunk from the first build is
retrievable. -/
theorem double_index_not_idempotent_cex :
    cexSubmit1.2.dbStore.length = 1 ∧
    cexSubmit2.2.dbStore.length = 2 ∧
    cexSubmit2.2 ≠ cexSubmit1.2 ∧
    retrieve_docs cexSubmit2.2.dbStore (cexEmbed "q") 3 =
      [{ page_content := "x = 1", source := "main.py" },
       { page_content := "x = 1", source := "main.py" }] := by
  refine ⟨rfl, rfl, by decide, by decide⟩

/-- Claim C2 as amended: calling index twice in succession on the same
session resets the fetched repo tree before each clone, but the persisted
vector store is never cleared and the second build appends: starting from an
empty store, after the first call the store holds exactly the build's
chunks and after the second call it holds two copies of them, so duplicate
chunks from the first build remain retrievable and the final state is not
equivalent to calling index once. -/
theorem double_index_appends_chunks
    (split : List Doc → List Doc) (embed : String → Vec) (app0 : AppState)
    (disk0 : SessionDisk) (repo_url : String) (tree : List RepoFile)
    (hne : load_all_documents tree ≠ [])
    (h0 : disk0.dbStore = []) :
    (submitIndex split embed app0 disk0 repo_url (.ok tree) true).2.dbStore =
      indexChunks split embed tree ∧
    (submitIndex split embed
        (submitIndex split embed app0 disk0 repo_url (.ok tree) true).1
        (submitIndex split embed app0 disk0 repo_url (.ok tree) true).2
        repo_url (.ok tree) true).2.dbStore =
      indexChunks split embed tree ++ indexChunks split embed tree := by
  have hl : ¬ (load_all_documents tree).length = 0 := by
    simpa [List.length_eq_zero] using hne
  constructor
  · simp [submitIndex, load_and_index, hl, h0]
  · simp [submitIndex, load_and_index, hl, h0]

/-- Witness for the amended claim C2 at the concrete one-file repository. -/
theorem double_index_appends_chunks_witness :
    cexSubmit2.2.dbStore =
      indexChunks cexSplit cexEmbed cexTree ++ indexChunks cexSplit cexEmbed cexTree :=
  (double_index_appends_chunks cexSplit cexEmbed
    { rag_system := none, indexed_repo := none }
    { repoTree := none, dbStore := [] } "u" cexTree (by decide) rfl).2

/-- Claim C7: retrieval returns the k stored chunks whose vectors are
closest to the query under the index's metric, ordered nearest-first
(formally: the result is the k-prefix of a distance-sorted permutation of
the store, it is sorted by distance, every returned entry is at least as
close as every entry left out, and it has length min k (store size)); and
ask uses k = 3. -/
theorem retrieve_k_nearest_sorted :
    (∀ (embed : String → Vec) (llm : String → String → String)
        (st : RAGState) (disk : SessionDisk) (q : String),
      st.qa_chain = true →
      (ask embed llm st disk q).1.source_documents =
        retrieve_docs disk.dbStore (embed q) 3) ∧
    (∀ (store : List (Doc × Vec)) (qv : Vec) (k : Nat),
      (chroma_retrieve store qv k).length = min k store.length ∧
      List.Pairwise (fun a b => sqDist a.2 qv ≤ sqDist b.2 qv)
        (chroma_retrieve store qv k) ∧
      ∃ rest : List (Doc × Vec),
        (chroma_retrieve store qv k ++ rest).Perm store ∧
        ∀ x ∈ chroma_retrieve store qv k, ∀ y ∈ rest,
          sqDist x.2 qv ≤ sqDist y.2 qv) := by
  constructor
  · intro embed llm st disk q h
    simp [ask, h]
  · intro store qv k
    haveI : IsTotal (Doc × Vec) (fun a b => sqDist a.2 qv ≤ sqDist b.2 qv) :=
      ⟨fun a b => le_total _ _⟩
    haveI : IsTrans (Doc × Vec) (fun a b => sqDist a.2 qv ≤ sqDist b.2 qv) :=
      ⟨fun _ _ _ hab hbc => le_trans hab hbc⟩
    have hs := List.sorted_insertionSort
      (fun a b : Doc × Vec => sqDist a.2 qv ≤ sqDist b.2 qv) store
    have hp := List.perm_insertionSort
      (fun a b : Doc × Vec => sqDist a.2 qv ≤ sqDist b.2 qv) store
    refine ⟨?_, ?_,
      (store.insertionSort (fun a b => sqDist a.2 qv ≤ sqDist b.2 qv)).drop k,
      ?_, ?_⟩
    · simp [chroma_retrieve, List.length_take, hp.length_eq]
    · exact List.Pairwise.sublist (List.take_sublist _ _) hs
    · rw [chroma_retrieve, List.take_append_drop]
      exact hp
    · intro x hx y hy
      rw [← List.take_append_drop k
        (store.insertionSort (fun a b => sqDist a.2 qv ≤ sqDist b.2 qv))] at hs
      exact (List.pairwise_append.mp hs).2.2 x hx y hy

/-- Witness for claim C7 at a concrete ready session and store. -/
theorem retrieve_k_nearest_sorted_witness :
    (ask cexEmbed (fun _ _ => "a") { retriever := true, qa_chain := true }
        { repoTree := none,
          dbStore := [({ page_content := "x = 1", source := "main.py" }, [5])] }
        "q").1.source_documents =
      retrieve_docs [({ page_content := "x = 1", source := "main.py" }, [5])]
        (cexEmbed "q") 3 :=
  retrieve_k_nearest_sorted.1 cexEmbed (fun _ _ => "a")
    { retriever := true, qa_chain := true }
    { repoTree := none,
      dbStore := [({ page_content := "x = 1", source := "main.py" }, [5])] }
    "q" rfl

end CodebaseRAG
